import Mathlib

/-!
Shallow embedding of the droplet/particle detection and counting pipeline of
`VialProgramTune.py` (class `DropletDetectorTuner`), together with proofs of the
specification's claims about it.

Modelling conventions:
* Grayscale images are lists of pixel rows, pixel intensities are exact
  rationals (the source works on 8-bit arrays whose intermediate values are
  floats; exact float rounding is not representable, so intensities are kept
  exact — no claim depends on rounded intensity values).
* Fallible OpenCV/NumPy calls are modelled in `Except String`; Python's
  `try/except` in `process_single_image` becomes a `match` on that result.
* `cv2.GaussianBlur` is modelled as a normalized separable binomial-kernel
  convolution with replicated borders: deterministic, shape preserving, and
  failing exactly when the source is empty or the kernel size is nonpositive,
  which is all the claims use of it (the exact Gaussian float weights are
  transcendental).
* Parameter values held by the Tk `DoubleVar` sliders are rationals; Python's
  `int()` truncation toward zero is `pyInt`.
-/

namespace VialTune

/-- Python `int()` truncation toward zero of a rational value. -/
def pyInt (q : ℚ) : Int := q.num.tdiv (q.den : Int)

/-- Effective index of a Python slice bound for a sequence of length `n`
(negative bounds count from the end, everything is clamped to `[0, n]`). -/
def pyBound (n : Nat) (i : Int) : Nat :=
  if i < 0 then ((n : Int) + i).toNat else min i.toNat n

/-- Python list slicing `a[i:j]` with step 1. -/
def pySlice (a : List α) (i j : Int) : List α :=
  (a.drop (pyBound a.length i)).take (pyBound a.length j - pyBound a.length i)

/-- Concatenation of a list of lists. -/
def concatAll (l : List (List α)) : List α := l.foldr (· ++ ·) []

/-- A grayscale image: a list of rows of rational pixel intensities. -/
abbrev Img := List (List ℚ)

/-- A binary image produced by thresholding (`true` = foreground 255). -/
abbrev BinImg := List (List Bool)

/-- Odd coercion applied to `BLUR_SIZE` and `MORPH_KERNEL_SIZE` before use:
`if size % 2 == 0: size += 1` (VialProgramTune.py lines 497-500, and the same
coercion on sampled values in the objective, lines 641-642). -/
def oddify (n : Int) : Int := if n % 2 = 0 then n + 1 else n

/-- NumPy-style 2-D crop `image[y_min:y_max, x_min:x_max]` (line 503). -/
def crop (image : Img) (yMin yMax xMin xMax : Int) : Img :=
  (pySlice image yMin yMax).map (fun row => pySlice row xMin xMax)

/-- Row of binomial weights approximating the Gaussian kernel of width `k`. -/
def binomKernel (k : Nat) : List ℚ :=
  (List.range k).map (fun i => ((k - 1).choose i : ℚ))

/-- Clamp an integer index into `[0, n-1]` (replicated border handling). -/
def clampIdx (n : Nat) (i : Int) : Nat :=
  if i < 0 then 0 else min i.toNat (n - 1)

/-- One-dimensional normalized binomial convolution of a row. -/
def conv1 (k : Nat) (row : List ℚ) : List ℚ :=
  let r : Int := ((k - 1) / 2 : Nat)
  let w := binomKernel k
  (List.range row.length).map (fun x =>
    ((List.range k).map (fun i =>
      w.getD i 0 * row.getD (clampIdx row.length ((x : Int) + (i : Int) - r)) 0)).sum
      / ((2 ^ (k - 1) : Nat) : ℚ))

/-- Whether an image has no pixels (no rows, or rows of width zero). -/
def isEmptyImg (image : Img) : Bool :=
  image.length == 0 || (image.getD 0 []).length == 0

/-- `cv2.GaussianBlur(roi, (k, k), 0)` (line 506): fails on an empty source or
a nonpositive kernel size, otherwise a deterministic separable smoothing. -/
def gaussianBlur (image : Img) (k : Int) : Except String Img :=
  if isEmptyImg image then Except.error "GaussianBlur: empty source image"
  else if k ≤ 0 then Except.error "GaussianBlur: kernel size must be positive"
  else Except.ok
    (((image.map (conv1 k.toNat)).transpose.map (conv1 k.toNat)).transpose)

/-- Insert a value into an already sorted list of rationals. -/
def insertSorted (x : ℚ) : List ℚ → List ℚ
  | [] => [x]
  | y :: ys => if x ≤ y then x :: y :: ys else y :: insertSorted x ys

/-- Insertion sort of a list of rationals. -/
def sortQ : List ℚ → List ℚ
  | [] => []
  | x :: xs => insertSorted x (sortQ xs)

/-- `np.percentile(blurred, brightness_percentile)` (line 509) with the default
linear interpolation; fails on an empty array or a percentile outside
`[0, 100]`. -/
def percentile (image : Img) (p : ℚ) : Except String ℚ :=
  let flat := concatAll image
  if flat.length = 0 then Except.error "percentile of an empty array"
  else if p < 0 ∨ 100 < p then Except.error "percentile out of range"
  else
    let v := sortQ flat
    let n := flat.length
    let h : ℚ := ((n : ℚ) - 1) * p / 100
    let lo := Rat.floor h
    let frac := h - (lo : ℚ)
    let vlo := v.getD lo.toNat 0
    let vhi := v.getD (min (lo.toNat + 1) (n - 1)) 0
    Except.ok (vlo + frac * (vhi - vlo))

/-- `cv2.threshold(blurred, t, 255, THRESH_BINARY)` (line 510): a pixel is
foreground exactly when its value is strictly greater than the threshold. -/
def thresholdBin (image : Img) (t : ℚ) : BinImg :=
  image.map (fun row => row.map (fun v => decide (t < v)))

/-- Offsets of the elliptical structuring element
`cv2.getStructuringElement(cv2.MORPH_ELLIPSE, (m, m))`: row `i` at vertical
distance `d` from the center keeps the columns within `⌊√(r² − d²)⌋` of the
center column (OpenCV's integer ellipse rasterization for a square kernel). -/
def ellipseOffsets (m : Nat) : List (Int × Int) :=
  let r := (m - 1) / 2
  concatAll ((List.range m).map (fun i =>
    let d := if i ≤ r then r - i else i - r
    let dx := Nat.sqrt (r * r - d * d)
    (List.range (2 * dx + 1)).map (fun j =>
      (((i : Int) - (r : Int)), ((j : Int) - (dx : Int))))))

/-- `cv2.getStructuringElement` (line 513): fails on a nonpositive size. -/
def getStructuringElement (m : Int) : Except String (List (Int × Int)) :=
  if m ≤ 0 then Except.error "getStructuringElement: size must be positive"
  else Except.ok (ellipseOffsets m.toNat)

/-- Read a pixel of a binary image, with a default for out-of-range indices
(the default plays the role of OpenCV's border value for erosion/dilation). -/
def getPix (b : BinImg) (y x : Int) (dflt : Bool) : Bool :=
  if y < 0 ∨ x < 0 then dflt
  else (b.getD y.toNat []).getD x.toNat dflt

/-- One dilation by a structuring element (out-of-range pixels count as 0). -/
def dilate1 (se : List (Int × Int)) (b : BinImg) : BinImg :=
  (List.range b.length).map (fun y =>
    (List.range (b.getD 0 []).length).map (fun x =>
      se.any (fun o => getPix b ((y : Int) + o.1) ((x : Int) + o.2) false)))

/-- One erosion by a structuring element (out-of-range pixels count as 255). -/
def erode1 (se : List (Int × Int)) (b : BinImg) : BinImg :=
  (List.range b.length).map (fun y =>
    (List.range (b.getD 0 []).length).map (fun x =>
      se.all (fun o => getPix b ((y : Int) + o.1) ((x : Int) + o.2) true)))

/-- Apply a function `n` times. -/
def iterApply (f : α → α) : Nat → α → α
  | 0, a => a
  | n + 1, a => iterApply f n (f a)

/-- `cv2.morphologyEx(binary, cv2.MORPH_CLOSE, kernel, iterations=3)`
(line 514): three dilations followed by three erosions. -/
def morphClose (se : List (Int × Int)) (b : BinImg) : BinImg :=
  iterApply (erode1 se) 3 (iterApply (dilate1 se) 3 b)

/-- `cv2.morphologyEx(binary, cv2.MORPH_OPEN, kernel, iterations=2)`
(line 515): two erosions followed by two dilations. -/
def morphOpen (se : List (Int × Int)) (b : BinImg) : BinImg :=
  iterApply (dilate1 se) 2 (iterApply (erode1 se) 2 b)

/-- A pixel coordinate `(y, x)`. -/
abbrev Pt := Nat × Nat

/-- Foreground pixel coordinates of a binary image, in raster order. -/
def fgPixels (b : BinImg) : List Pt :=
  concatAll ((List.range b.length).map (fun y =>
    (List.range (b.getD y []).length).filterMap (fun x =>
      if (b.getD y []).getD x false then some (y, x) else none)))

/-- 8-connectivity adjacency of two distinct pixels. -/
def adjacent8 (p q : Pt) : Bool :=
  (max p.1 q.1 - min p.1 q.1 ≤ 1) && (max p.2 q.2 - min p.2 q.2 ≤ 1)
    && decide (p ≠ q)

/-- Grow one connected component from a seed set, fueled for termination. -/
def grow : Nat → List Pt → List Pt → List Pt × List Pt
  | 0, comp, rest => (comp, rest)
  | fuel + 1, comp, rest =>
    let adj := rest.filter (fun q => comp.any (fun p => adjacent8 p q))
    if adj.isEmpty then (comp, rest)
    else grow fuel (comp ++ adj)
      (rest.filter (fun q => !(comp.any (fun p => adjacent8 p q))))

/-- Partition foreground pixels into 8-connected components, in the order of
their first (raster-order) pixel — the deterministic counterpart of the label
order of `cv2.connectedComponentsWithStats(binary, connectivity=8)`
(line 518); label 0 (background) is not represented. -/
def extractComponents : Nat → List Pt → List (List Pt)
  | 0, _ => []
  | _, [] => []
  | fuel + 1, p :: rest =>
    let g := grow (p :: rest).length [p] rest
    g.1 :: extractComponents fuel g.2

/-- A detected blob: center translated back to original image coordinates,
display radius derived from the area, and the pixel-count area
(lines 526-529). -/
structure Blob where
  cx : Int
  cy : Int
  radius : Nat
  area : Nat
deriving DecidableEq

/-- `int(np.sqrt(area / np.pi))` (line 528); `np.pi` is modelled by the
rational `314159265 / 100000000`. -/
def radiusOfArea (area : Nat) : Nat :=
  Nat.sqrt (area * 100000000 / 314159265)

/-- Build the blob record of one surviving component: truncated centroid plus
the `(x_min, y_min)` translation (lines 526-529). -/
def mkBlob (comp : List Pt) (xMin yMin : Int) : Blob :=
  let a := comp.length
  let cxMean : ℚ := ((comp.map (fun p => (p.2 : ℚ))).sum) / (a : ℚ)
  let cyMean : ℚ := ((comp.map (fun p => (p.1 : ℚ))).sum) / (a : ℚ)
  { cx := pyInt cxMean + xMin, cy := pyInt cyMean + yMin,
    radius := radiusOfArea a, area := a }

/-- Steps 2-6 of the pipeline (lines 502-518): crop, blur, percentile
threshold, binarize, close, open, extract 8-connected components. These steps
never look at `MIN_BLOB_AREA`/`MAX_BLOB_AREA`. -/
def stage1 (image : Img) (xMin xMax yMin yMax : Int) (brightnessPercentile : ℚ)
    (blurSize morphSize : Int) : Except String (List (List Pt)) := do
  let roi := crop image yMin yMax xMin xMax
  let blurred ← gaussianBlur roi blurSize
  let thresholdValue ← percentile blurred brightnessPercentile
  let binary := thresholdBin blurred thresholdValue
  let kernel ← getStructuringElement morphSize
  let closed := morphClose kernel binary
  let opened := morphOpen kernel closed
  Except.ok (extractComponents (fgPixels opened).length (fgPixels opened))

/-- The full effective parameter vector handed to one detection run, after the
`int()` conversions of lines 475-493. -/
structure DetectParams where
  xMin : Int
  xMax : Int
  yMin : Int
  yMax : Int
  brightnessPercentile : ℚ
  minArea : Int
  maxArea : Int
  blurSize : Int
  morphSize : Int
deriving DecidableEq

/-- The body of the `try` block of `process_single_image` (lines 495-530):
odd-coerce the kernel sizes, run steps 2-6, then keep the components whose
area lies in `[MIN_BLOB_AREA, MAX_BLOB_AREA]` and count them. -/
def pipelineCore (image : Img) (p : DetectParams) :
    Except String (Nat × List Blob) :=
  match stage1 image p.xMin p.xMax p.yMin p.yMax p.brightnessPercentile
      (oddify p.blurSize) (oddify p.morphSize) with
  | Except.error e => Except.error e
  | Except.ok comps =>
    let valid := comps.filterMap (fun c =>
      if p.minArea ≤ (c.length : Int) ∧ (c.length : Int) ≤ p.maxArea then
        some (mkBlob c p.xMin p.yMin)
      else none)
    Except.ok (valid.length, valid)

/-- The `try/except` of `process_single_image` (lines 495-562): any failure of
the pipeline is swallowed and the count 0 is returned. Visualization
(lines 533-555) only draws on a copy of the image and never changes the
returned count, so it is not represented. -/
def runPipeline (image : Img) (p : DetectParams) : Nat :=
  match pipelineCore image p with
  | Except.ok r => r.1
  | Except.error _ => 0

/-- The nine tunable parameters, in creation order (lines 148-175). -/
inductive PName where
  | xMin
  | xMax
  | yMin
  | yMax
  | brightnessPercentile
  | minBlobArea
  | maxBlobArea
  | blurSize
  | morphKernelSize
deriving DecidableEq

/-- The slider key of a parameter, as the source spells it. -/
def PName.key : PName → String
  | .xMin => "X_MIN"
  | .xMax => "X_MAX"
  | .yMin => "Y_MIN"
  | .yMax => "Y_MAX"
  | .brightnessPercentile => "BRIGHTNESS_PERCENTILE"
  | .minBlobArea => "MIN_BLOB_AREA"
  | .maxBlobArea => "MAX_BLOB_AREA"
  | .blurSize => "BLUR_SIZE"
  | .morphKernelSize => "MORPH_KERNEL_SIZE"

/-- All nine parameters in the creation order of `create_widgets`. -/
def allParams : List PName :=
  [.xMin, .xMax, .yMin, .yMax, .brightnessPercentile, .minBlobArea,
   .maxBlobArea, .blurSize, .morphKernelSize]

/-- `'SIZE' in param_name` (lines 263 and 641). -/
def hasSIZE (s : String) : Bool := (s.splitOn "SIZE").length != 1

/-- Membership in the integer-parameter list of line 618. -/
def PName.isIntegerParam : PName → Bool
  | .brightnessPercentile => false
  | _ => true

/-- `(min, max, step)` bounds of each parameter (lines 148-175). -/
def param_bounds : PName → ℚ × ℚ × ℚ
  | .xMin => (0, 7000, 100)
  | .xMax => (0, 7000, 100)
  | .yMin => (0, 5000, 100)
  | .yMax => (0, 5000, 100)
  | .brightnessPercentile => (80, 999 / 10, 1 / 2)
  | .minBlobArea => (10000, 500000, 5000)
  | .maxBlobArea => (100000, 5000000, 10000)
  | .blurSize => (3, 51, 2)
  | .morphKernelSize => (3, 51, 2)

/-- Lookup in an association list of parameter values (a Python dict whose
keys are the parameter names). -/
def dictLookup : List (PName × ℚ) → PName → Option ℚ
  | [], _ => none
  | (k, v) :: rest, n => if n = k then some v else dictLookup rest n

/-- `params_dict.get(name, default)`. -/
def dictGetD (d : List (PName × ℚ)) (n : PName) (dflt : ℚ) : ℚ :=
  (dictLookup d n).getD dflt

/-- Parameter resolution of `process_single_image` (lines 474-493): either all
values come from the sliders, or each is looked up in the provided dict with
the slider value as default; integer parameters go through `int()`. -/
def resolveParams (sliders : PName → ℚ) (dict : Option (List (PName × ℚ))) :
    DetectParams :=
  match dict with
  | none =>
    { xMin := pyInt (sliders .xMin), xMax := pyInt (sliders .xMax),
      yMin := pyInt (sliders .yMin), yMax := pyInt (sliders .yMax),
      brightnessPercentile := sliders .brightnessPercentile,
      minArea := pyInt (sliders .minBlobArea),
      maxArea := pyInt (sliders .maxBlobArea),
      blurSize := pyInt (sliders .blurSize),
      morphSize := pyInt (sliders .morphKernelSize) }
  | some d =>
    { xMin := pyInt (dictGetD d .xMin (sliders .xMin)),
      xMax := pyInt (dictGetD d .xMax (sliders .xMax)),
      yMin := pyInt (dictGetD d .yMin (sliders .yMin)),
      yMax := pyInt (dictGetD d .yMax (sliders .yMax)),
      brightnessPercentile :=
        dictGetD d .brightnessPercentile (sliders .brightnessPercentile),
      minArea := pyInt (dictGetD d .minBlobArea (sliders .minBlobArea)),
      maxArea := pyInt (dictGetD d .maxBlobArea (sliders .maxBlobArea)),
      blurSize := pyInt (dictGetD d .blurSize (sliders .blurSize)),
      morphSize := pyInt (dictGetD d .morphKernelSize (sliders .morphKernelSize)) }

/-- `process_single_image(image, filename, params_dict, visualize)`
(lines 471-562), as the image → count function: resolve the parameters, run
the pipeline, return 0 on any caught exception. -/
def process_single_image (image : Img) (sliders : PName → ℚ)
    (dict : Option (List (PName × ℚ))) : Nat :=
  runPipeline image (resolveParams sliders dict)

/-- One loaded image with its operator-assigned target count (lines 313-323). -/
structure ImageRec where
  filename : String
  image : Img
  target : Int
deriving DecidableEq

/-- The tuner's interactive state: slider values, lock flags, the loaded image
set, and the optimization bookkeeping (lines 18-24, 113-117, 142-144). During
an optimization run the GUI thread does not mutate the sliders (auto-update is
suppressed while `optimizing`), so the state is passed as an immutable value. -/
structure TunerState where
  params : PName → ℚ
  paramLocks : PName → Bool
  loadedImages : List ImageRec
  currentImageIndex : Nat
  optimizing : Bool
  maxIterations : Nat
  errorMetric : String

/-- The synchronous outcome of pressing "Start Optimization". -/
inductive StartOutcome where
  | errorDialog (msg : String)
  | silentReturn
  | threadStarted (unlocked : List PName)
deriving DecidableEq

/-- Whether an outcome showed a user-visible error dialog. -/
def StartOutcome.showsError : StartOutcome → Bool
  | .errorDialog _ => true
  | _ => false

/-- `start_optimization` (lines 564-599): reject when no images are loaded,
when already optimizing (a bare `return`, no dialog), when some target is
negative, or when no parameter is unlocked; otherwise start the background
thread on the unlocked parameters. -/
def start_optimization (s : TunerState) : StartOutcome :=
  if s.loadedImages.length = 0 then
    StartOutcome.errorDialog "Please load images first!"
  else if s.optimizing then StartOutcome.silentReturn
  else if s.loadedImages.any (fun i => decide (i.target < 0)) then
    StartOutcome.errorDialog "All target droplet counts must be >= 0"
  else
    let unlocked := allParams.filter (fun n => !(s.paramLocks n))
    if unlocked.length = 0 then
      StartOutcome.errorDialog "Please unlock at least one parameter to optimize!"
    else StartOutcome.threadStarted unlocked

/-- `stop_optimization` (lines 601-604): clear the shared flag. -/
def stop_optimization (s : TunerState) : TunerState :=
  { s with optimizing := false }

/-- Largest element of a list, as `np.max` computes it on a nonempty list
(the value 0 on `[]` is a modelling artifact: `np.max` raises there, and the
objective always passes one error per loaded image). -/
def npMax : List ℚ → ℚ
  | [] => 0
  | [x] => x
  | x :: y :: rest => max x (npMax (y :: rest))

/-- Aggregate-error computation of the objective (lines 660-666):
`np.mean`, `np.sum`, or `np.max` of the per-image errors, selected by the
metric string (anything other than "average"/"sum" falls to the max branch). -/
def aggError (metric : String) (errors : List ℚ) : ℚ :=
  if metric = "average" then errors.sum / (errors.length : ℚ)
  else if metric = "sum" then errors.sum
  else npMax errors

/-- One search dimension handed to `gp_minimize` (lines 617-621). -/
inductive Dim where
  | integerDim (name : PName) (lo hi : Int)
  | realDim (name : PName) (lo hi : ℚ)
deriving DecidableEq

/-- The parameter a search dimension ranges over. -/
def Dim.pname : Dim → PName
  | .integerDim n _ _ => n
  | .realDim n _ _ => n

/-- Search-space construction of `_run_optimization` (lines 609-621): one
dimension per unlocked parameter, `Integer` for the integer parameters and
`Real` for `BRIGHTNESS_PERCENTILE`. -/
def buildSpace (unlocked : List PName) : List Dim :=
  unlocked.map (fun n =>
    let b := param_bounds n
    if n.isIntegerParam then Dim.integerDim n (pyInt b.1) (pyInt b.2.1)
    else Dim.realDim n b.1 b.2.1)

/-- Full parameter dict built for one trial (lines 636-648): sampled values
for the unlocked parameters (odd-coerced when the name contains "SIZE" and the
integer part is even), then every locked parameter at its current slider
value. -/
def buildDict (s : TunerState) (unlocked : List PName) (proposal : List ℚ) :
    List (PName × ℚ) :=
  (unlocked.zip proposal).map (fun q =>
    (q.1, if hasSIZE q.1.key && decide (pyInt q.2 % 2 = 0) then
      ((pyInt q.2 + 1 : Int) : ℚ) else q.2))
  ++ (allParams.filter (fun n => s.paramLocks n)).map (fun n => (n, s.params n))

/-- Per-image absolute errors of one trial (lines 651-658):
`abs(detected - target)` over every loaded image. -/
def imageErrors (s : TunerState) (d : List (PName × ℚ)) : List ℚ :=
  s.loadedImages.map (fun im =>
    ((((process_single_image im.image s.params (some d) : Int)
        - im.target).natAbs : ℚ)))

/-- `total_error < best_score[0]` where the initial best is `float('inf')`
(modelled by `none`). -/
def improves (te : ℚ) : Option ℚ → Bool
  | none => true
  | some b => decide (te < b)

/-- One call of `gp_minimize`'s objective, as seen by the closed-over
mutable cells (lines 624-678). -/
structure Trial where
  optimizing : Bool
  proposal : List ℚ

/-- The mutable cells closed over by the objective: `iteration_count`,
`best_params`, `best_score` (lines 624-626); `none` is `float('inf')` /
Python `None`. -/
structure OptState where
  iterationCount : Nat
  bestParams : Option (List (PName × ℚ))
  bestScore : Option ℚ
deriving DecidableEq

/-- The initial cells of a run (lines 624-626). -/
def optInit : OptState :=
  { iterationCount := 0, bestParams := none, bestScore := none }

/-- The objective function (lines 630-678): if the shared flag was cleared,
return the best score so far and leave the cells alone; otherwise count the
iteration, build the trial dict, run detection on all images, aggregate the
errors, and record a new best when the aggregate strictly improves. -/
def objectiveStep (s : TunerState) (unlocked : List PName) (t : Trial)
    (st : OptState) : OptState × Option ℚ :=
  if t.optimizing = false then (st, st.bestScore)
  else
    let st1 := { st with iterationCount := st.iterationCount + 1 }
    let d := buildDict s unlocked t.proposal
    let totalError := aggError s.errorMetric (imageErrors s d)
    if improves totalError st.bestScore then
      ({ st1 with bestParams := some d, bestScore := some totalError },
        some totalError)
    else (st1, some totalError)

/-- The sequence of objective evaluations `gp_minimize` performs during one
run, folded over the shared cells (the library itself is external: it calls
the objective once per trial and then returns). -/
def runTrials (s : TunerState) (unlocked : List PName) (ts : List Trial)
    (st : OptState) : OptState :=
  ts.foldl (fun st t => (objectiveStep s unlocked t st).1) st

/-- The best score recorded after the first `k` evaluations of a run. -/
def bestAfter (s : TunerState) (unlocked : List PName) (ts : List Trial)
    (k : Nat) : Option ℚ :=
  (runTrials s unlocked (ts.take k) optInit).bestScore

/-- How a run ends (lines 692-705): either the best parameters are applied to
the sliders with a completion message, or nothing is applied and a stop
message is shown. -/
inductive RunOutcome where
  | applied (newParams : PName → ℚ) (msg : String)
  | stopped (msg : String)

/-- The tail of `_run_optimization` (lines 692-705): apply the best vector
only when one was found and the shared flag is still set; otherwise report
"Optimization stopped by user" and leave every parameter unchanged. -/
def finishOptimization (s : TunerState) (finalOptimizing : Bool)
    (st : OptState) : RunOutcome :=
  match st.bestParams with
  | some bp =>
    if finalOptimizing then
      RunOutcome.applied (fun n => dictGetD bp n (s.params n))
        "Optimization complete"
    else RunOutcome.stopped "Optimization stopped by user"
  | none => RunOutcome.stopped "Optimization stopped by user"

/-- Outcome of the interactive "Process Current" action: either the no-images
status, or a completed run whose status line shows the detected count, the
target and the absolute error (the string formatting itself is not
modelled). -/
inductive ProcessNowOutcome where
  | noImages
  | processed (detected : Nat) (target : Int) (errorCount : Nat)
deriving DecidableEq

/-- Whether the action ran detection and reported a result line. -/
def ProcessNowOutcome.isProcessed : ProcessNowOutcome → Bool
  | .processed _ _ _ => true
  | _ => false

/-- Placeholder record for an out-of-range index (never reached: the source
keeps `current_image_index` inside the loaded list). -/
def defaultImageRec : ImageRec := { filename := "", image := [], target := 0 }

/-- `self.loaded_images[self.current_image_index]`. -/
def currentImage (s : TunerState) : ImageRec :=
  s.loadedImages.getD s.currentImageIndex defaultImageRec

/-- `process_current_image` (lines 418-431): bail out on an empty image list,
otherwise run single-image detection on the current image and put the
detected/target/error line in the status bar — with no abort path: a caught
pipeline failure simply surfaces as `detected = 0`. -/
def process_current_image (s : TunerState) : ProcessNowOutcome :=
  if s.loadedImages.length = 0 then ProcessNowOutcome.noImages
  else
    let im := currentImage s
    let detected := process_single_image im.image s.params none
    ProcessNowOutcome.processed detected im.target
      ((detected : Int) - im.target).natAbs

/-- A 2×2 test image. -/
def c1img : Img := [[0, 0], [0, 0]]

/-- Slider values with an inverted ROI (`X_MIN > X_MAX`), making the crop
empty so that the blur step fails. -/
def c1sliders : PName → ℚ
  | .xMin => 5
  | .xMax => 2
  | .yMin => 0
  | .yMax => 2
  | .brightnessPercentile => 90
  | .minBlobArea => 1
  | .maxBlobArea => 10
  | .blurSize => 3
  | .morphKernelSize => 3

/-- Concrete parameter vector with a valid tiny ROI, for the monotonicity
witness. -/
def c7p : DetectParams :=
  { xMin := 0, xMax := 2, yMin := 0, yMax := 2, brightnessPercentile := 50,
    minArea := 5, maxArea := 10, blurSize := 3, morphSize := 3 }

/-- A 2×2 uniform test image. -/
def c7img : Img := [[5, 5], [5, 5]]

/-- Concrete parameter vector for the determinism witness. -/
def c9p : DetectParams :=
  { xMin := 0, xMax := 2, yMin := 0, yMax := 2, brightnessPercentile := 90,
    minArea := 1, maxArea := 10, blurSize := 3, morphSize := 3 }

/-- A 2×2 test image for the determinism witness. -/
def c9img : Img := [[1, 2], [3, 4]]

/-- One loaded image record. -/
def c6image : ImageRec := { filename := "a.jpg", image := [[0]], target := 3 }

/-- A state with one image loaded and an optimization already running: every
parameter locked, sliders at 0. -/
def c6state : TunerState :=
  { params := fun _ => 0, paramLocks := fun _ => true,
    loadedImages := [c6image], currentImageIndex := 0, optimizing := true,
    maxIterations := 50, errorMetric := "average" }

/-- A quiescent state for the optimizer-model witnesses. -/
def c4state : TunerState :=
  { params := fun _ => 0, paramLocks := fun _ => true, loadedImages := [],
    currentImageIndex := 0, optimizing := false, maxIterations := 50,
    errorMetric := "average" }

/-- Two objective calls made after the user cleared the shared flag. -/
def c4trials : List Trial :=
  [{ optimizing := false, proposal := [] },
   { optimizing := false, proposal := [] }]

/-- A quiescent state for the cancellation witness. -/
def c5state : TunerState :=
  { params := fun _ => 0, paramLocks := fun _ => true, loadedImages := [],
    currentImageIndex := 0, optimizing := false, maxIterations := 50,
    errorMetric := "average" }

/-- One objective call made after the user cleared the shared flag. -/
def c5trials : List Trial := [{ optimizing := false, proposal := [] }]

/-- A state with every parameter locked, for the locked-parameter witness. -/
def c8state : TunerState :=
  { params := fun _ => 7, paramLocks := fun _ => true, loadedImages := [],
    currentImageIndex := 0, optimizing := true, maxIterations := 50,
    errorMetric := "average" }

/-- An image record whose detection will hit the invalid-ROI failure. -/
def c10image : ImageRec :=
  { filename := "bad.jpg", image := [[0, 0], [0, 0]], target := 3 }

/-- Slider values with an inverted ROI for the interactive-action state. -/
def c10sliders : PName → ℚ
  | .xMin => 5
  | .xMax => 2
  | .yMin => 0
  | .yMax => 2
  | .brightnessPercentile => 90
  | .minBlobArea => 1
  | .maxBlobArea => 10
  | .blurSize => 3
  | .morphKernelSize => 3

/-- A state whose current sliders define an inverted (empty) ROI. -/
def c10state : TunerState :=
  { params := c10sliders, paramLocks := fun _ => true,
    loadedImages := [c10image], currentImageIndex := 0, optimizing := false,
    maxIterations := 50, errorMetric := "average" }

/-- C1: For every image and every full parameter vector, if any exception is
raised during pipeline steps 2-7 (cropping, blur, threshold, morphology,
component extraction; e.g. a zero-size crop), `process_single_image` catches
it and returns count 0 for that image instead of propagating the exception. -/
theorem c1_exception_caught_returns_zero (image : Img) (sliders : PName → ℚ)
    (dict : Option (List (PName × ℚ)))
    (h : (pipelineCore image (resolveParams sliders dict)).toOption = none) :
    process_single_image image sliders dict = 0 := by
  unfold process_single_image runPipeline
  cases hp : pipelineCore image (resolveParams sliders dict) with
  | ok r => rw [hp] at h; simp [Except.toOption] at h
  | error e => rfl

/-- Witness for C1 at a concrete image and an inverted (empty) ROI. -/
theorem c1_witness :
    (pipelineCore c1img (resolveParams c1sliders none)).toOption = none
  ∧ process_single_image c1img c1sliders none = 0 :=
  ⟨by decide, c1_exception_caught_returns_zero c1img c1sliders none (by decide)⟩

/-- C2: For every requested `BLUR_SIZE` and `MORPH_KERNEL_SIZE` (integer), the
effective kernel size used by the detection pipeline — `oddify` of the
request, as applied by `pipelineCore` — is always odd, is greater than or
equal to the requested value, and equals the requested value exactly when the
requested value is already odd (an even request has 1 added). -/
theorem c2_effective_kernel_size_odd (n : Int) :
    Odd (oddify n) ∧ n ≤ oddify n ∧ (Odd n → oddify n = n) := by
  unfold oddify
  by_cases h : n % 2 = 0
  · rw [if_pos h]
    refine ⟨?_, by omega, ?_⟩
    · rw [Int.odd_iff]; omega
    · intro ho; rw [Int.odd_iff] at ho; omega
  · rw [if_neg h]
    exact ⟨by rw [Int.odd_iff]; omega, le_refl n, fun _ => rfl⟩

/-- Witness for C2 at the even request 4 and the odd request 7. -/
theorem c2_witness :
    (Odd (oddify 4) ∧ (4 : Int) ≤ oddify 4 ∧ (Odd (4 : Int) → oddify 4 = 4))
  ∧ (Odd (oddify 7) ∧ (7 : Int) ≤ oddify 7 ∧ (Odd (7 : Int) → oddify 7 = 7)) :=
  ⟨c2_effective_kernel_size_odd 4, c2_effective_kernel_size_odd 7⟩

lemma npMax_cons (x : ℚ) (xs : List ℚ) (h : xs ≠ []) :
    npMax (x :: xs) = max x (npMax xs) := by
  cases xs with
  | nil => exact absurd rfl h
  | cons y ys => rfl

lemma listSum_nonneg (l : List ℚ) (h : ∀ e ∈ l, 0 ≤ e) : 0 ≤ l.sum := by
  induction l with
  | nil => simp
  | cons x xs ih =>
    rw [List.sum_cons]
    have hx := h x (by simp)
    have hxs := ih (fun e he => h e (by simp [he]))
    linarith

lemma sum_le_length_mul_npMax (l : List ℚ) :
    l.sum ≤ (l.length : ℚ) * npMax l := by
  induction l with
  | nil => simp
  | cons x xs ih =>
    cases xs with
    | nil => simp [npMax]
    | cons y ys =>
      rw [npMax_cons x (y :: ys) (by simp), List.sum_cons]
      have h1 : x ≤ max x (npMax (y :: ys)) := le_max_left _ _
      have h2 : ((y :: ys).length : ℚ) * npMax (y :: ys)
          ≤ ((y :: ys).length : ℚ) * max x (npMax (y :: ys)) := by
        apply mul_le_mul_of_nonneg_left (le_max_right _ _)
        positivity
      have h3 : ((x :: y :: ys).length : ℚ)
          = ((y :: ys).length : ℚ) + 1 := by
        push_cast [List.length_cons]
        ring
      rw [h3]
      calc x + (y :: ys).sum
          ≤ max x (npMax (y :: ys))
            + ((y :: ys).length : ℚ) * max x (npMax (y :: ys)) := by
              have := le_trans ih h2
              linarith
        _ = (((y :: ys).length : ℚ) + 1) * max x (npMax (y :: ys)) := by ring

lemma npMax_le_sum (l : List ℚ) (h : ∀ e ∈ l, 0 ≤ e) : npMax l ≤ l.sum := by
  induction l with
  | nil => simp [npMax]
  | cons x xs ih =>
    cases xs with
    | nil => simp [npMax]
    | cons y ys =>
      rw [npMax_cons x (y :: ys) (by simp), List.sum_cons]
      have hx := h x (by simp)
      have hrest : ∀ e ∈ y :: ys, 0 ≤ e := fun e he => h e (by simp [he])
      have hsum := listSum_nonneg (y :: ys) hrest
      have hm := ih hrest
      exact max_le (by linarith) (by linarith)

lemma aggError_average_eq (errors : List ℚ) :
    aggError "average" errors = errors.sum / (errors.length : ℚ) := by
  unfold aggError
  rw [if_pos rfl]

lemma aggError_sum_eq (errors : List ℚ) :
    aggError "sum" errors = errors.sum := by
  unfold aggError
  rw [if_neg (by decide), if_pos rfl]

lemma aggError_max_eq (errors : List ℚ) :
    aggError "max" errors = npMax errors := by
  unfold aggError
  rw [if_neg (by decide), if_neg (by decide)]

/-- C3: For every finite list of non-negative per-image errors, the three
aggregation metrics satisfy: max >= average >= 0; sum >= max when more than
one image is present; and sum == average == max when exactly one image is
present. -/
theorem c3_aggregation_bounds (errors : List ℚ) (hne : errors ≠ [])
    (hnn : ∀ e ∈ errors, 0 ≤ e) :
    aggError "average" errors ≤ aggError "max" errors
  ∧ 0 ≤ aggError "average" errors
  ∧ (1 < errors.length → aggError "max" errors ≤ aggError "sum" errors)
  ∧ (errors.length = 1 →
      aggError "sum" errors = aggError "average" errors
      ∧ aggError "average" errors = aggError "max" errors) := by
  have hlen : 0 < (errors.length : ℚ) := by
    have : 0 < errors.length := List.length_pos.mpr hne
    exact_mod_cast this
  rw [aggError_average_eq, aggError_sum_eq, aggError_max_eq]
  refine ⟨?_, ?_, ?_, ?_⟩
  · rw [div_le_iff₀ hlen]
    calc errors.sum ≤ (errors.length : ℚ) * npMax errors :=
          sum_le_length_mul_npMax errors
      _ = npMax errors * (errors.length : ℚ) := by ring
  · exact div_nonneg (listSum_nonneg errors hnn) (le_of_lt hlen)
  · intro _
    exact npMax_le_sum errors hnn
  · intro h1
    obtain ⟨e, rfl⟩ := List.length_eq_one.mp h1
    simp [npMax]

/-- Witness for C3 at the concrete error list `[1, 2]`. -/
theorem c3_witness :
    aggError "average" [1, 2] ≤ aggError "max" [1, 2]
  ∧ 0 ≤ aggError "average" [1, 2]
  ∧ (1 < ([1, 2] : List ℚ).length →
      aggError "max" [1, 2] ≤ aggError "sum" [1, 2])
  ∧ (([1, 2] : List ℚ).length = 1 →
      aggError "sum" [1, 2] = aggError "average" [1, 2]
      ∧ aggError "average" [1, 2] = aggError "max" [1, 2]) :=
  c3_aggregation_bounds [1, 2] (by decide) (by decide)

/-- Order on recorded best scores where `none` stands for `float('inf')`. -/
def optLe : Option ℚ → Option ℚ → Bool
  | _, none => true
  | none, some _ => false
  | some a, some b => decide (a ≤ b)

lemma optLe_refl (a : Option ℚ) : optLe a a = true := by
  cases a with
  | none => rfl
  | some x => simp [optLe]

lemma optLe_trans {a b c : Option ℚ} (h1 : optLe a b = true)
    (h2 : optLe b c = true) : optLe a c = true := by
  cases a <;> cases b <;> cases c <;> simp_all [optLe]
  linarith

lemma objectiveStep_bestScore_le (s : TunerState) (u : List PName) (t : Trial)
    (st : OptState) :
    optLe ((objectiveStep s u t st).1).bestScore st.bestScore = true := by
  unfold objectiveStep
  by_cases hf : t.optimizing = false
  · rw [if_pos hf]
    exact optLe_refl _
  · rw [if_neg hf]
    simp only
    by_cases hi : improves
        (aggError s.errorMetric (imageErrors s (buildDict s u t.proposal)))
        st.bestScore = true
    · rw [if_pos hi]
      cases hb : st.bestScore with
      | none => rfl
      | some b =>
        rw [hb] at hi
        simp only [improves, decide_eq_true_eq] at hi
        simp [optLe, le_of_lt hi]
    · rw [if_neg hi]
      exact optLe_refl _

lemma runTrials_bestScore_le (s : TunerState) (u : List PName)
    (ts : List Trial) (st : OptState) :
    optLe (runTrials s u ts st).bestScore st.bestScore = true := by
  induction ts generalizing st with
  | nil => exact optLe_refl _
  | cons t ts ih =>
    have h1 := objectiveStep_bestScore_le s u t st
    have h2 := ih ((objectiveStep s u t st).1)
    unfold runTrials at h2 ⊢
    rw [List.foldl_cons]
    exact optLe_trans h2 h1

/-- C4: Across every optimization run, the best score maintained and reported
by the objective function is non-increasing in iteration index: each
iteration's recorded best score is less than or equal to every earlier
iteration's recorded best score. -/
theorem c4_best_score_nonincreasing (s : TunerState) (unlocked : List PName)
    (ts : List Trial) (i j : Nat) (hij : i ≤ j) :
    optLe (bestAfter s unlocked ts j) (bestAfter s unlocked ts i) = true := by
  unfold bestAfter
  have hj : ts.take j = ts.take i ++ (ts.drop i).take (j - i) := by
    rw [← List.take_add]
    congr 1
    omega
  rw [hj]
  unfold runTrials
  rw [List.foldl_append]
  exact runTrials_bestScore_le s unlocked ((ts.drop i).take (j - i)) _

/-- Witness for C4 at a concrete two-trial run and iterations 1 ≤ 2. -/
theorem c4_witness :
    (1 ≤ 2)
  ∧ optLe (bestAfter c4state [] c4trials 2) (bestAfter c4state [] c4trials 1)
      = true :=
  ⟨by decide, c4_best_score_nonincreasing c4state [] c4trials 1 2 (by decide)⟩

lemma runTrials_all_stopped (s : TunerState) (u : List PName)
    (ts : List Trial) (st : OptState)
    (h : ∀ t ∈ ts, t.optimizing = false) :
    runTrials s u ts st = st := by
  induction ts generalizing st with
  | nil => rfl
  | cons t ts ih =>
    have ht : t.optimizing = false := h t (by simp)
    have hstep : (objectiveStep s u t st).1 = st := by
      unfold objectiveStep
      rw [if_pos ht]
    unfold runTrials at ih ⊢
    rw [List.foldl_cons, hstep]
    exact ih st (fun t' ht' => h t' (by simp [ht']))

/-- C5: For every optimization run that is stopped by the user before any
improving trial is found (in particular before the first evaluation
completes), the parameter set is left unchanged and the run reports the
status "stopped by user", without raising an exception: with the shared flag
cleared at every objective call, the closed-over cells never change, so
`best_params` stays `None`, no value is written back to any slider, and the
final status is the stop message. -/
theorem c5_stop_before_first_evaluation (s : TunerState)
    (unlocked : List PName) (ts : List Trial)
    (h : ∀ t ∈ ts, t.optimizing = false) :
    runTrials s unlocked ts optInit = optInit
  ∧ finishOptimization s ((stop_optimization s).optimizing)
      (runTrials s unlocked ts optInit)
      = RunOutcome.stopped "Optimization stopped by user" := by
  have h1 := runTrials_all_stopped s unlocked ts optInit h
  exact ⟨h1, by rw [h1]; rfl⟩

/-- Witness for C5 at a concrete one-trial run with the flag cleared. -/
theorem c5_witness :
    (∀ t ∈ c5trials, t.optimizing = false)
  ∧ (runTrials c5state [] c5trials optInit = optInit
     ∧ finishOptimization c5state ((stop_optimization c5state).optimizing)
         (runTrials c5state [] c5trials optInit)
         = RunOutcome.stopped "Optimization stopped by user") :=
  ⟨by decide, c5_stop_before_first_evaluation c5state [] c5trials (by decide)⟩

/-- C6 counterexample: in a state with images loaded and an optimization
already running, `start_optimization` returns by the bare
`if self.optimizing: return` of line 570 — no background thread is started,
but no user-visible error is produced either, contradicting the claim that
the already-running case "must produce a user-visible error, not a silent
no-op". -/
theorem c6_counterexample :
    c6state.optimizing = true
  ∧ c6state.loadedImages.length ≠ 0
  ∧ start_optimization c6state = StartOutcome.silentReturn
  ∧ StartOutcome.showsError (start_optimization c6state) = false := by
  decide

/-- C6 (amended): `start_optimization` is rejected synchronously, with no
background thread started, whenever no images are loaded, an optimization is
already running, some target count is negative, or no parameter is unlocked;
the no-images, negative-target and no-unlocked cases produce a user-visible
error dialog, while the already-running case returns silently with no
dialog. -/
theorem c6_rejections_no_thread (s : TunerState) :
    (s.loadedImages.length = 0 →
      start_optimization s = StartOutcome.errorDialog "Please load images first!")
  ∧ (s.loadedImages.length ≠ 0 → s.optimizing = true →
      start_optimization s = StartOutcome.silentReturn)
  ∧ (s.loadedImages.length ≠ 0 → s.optimizing = false →
      s.loadedImages.any (fun i => decide (i.target < 0)) = true →
      start_optimization s
        = StartOutcome.errorDialog "All target droplet counts must be >= 0")
  ∧ (s.loadedImages.length ≠ 0 → s.optimizing = false →
      s.loadedImages.any (fun i => decide (i.target < 0)) = false →
      (allParams.filter (fun n => !(s.paramLocks n))).length = 0 →
      start_optimization s = StartOutcome.errorDialog
        "Please unlock at least one parameter to optimize!")
  ∧ (∀ u, start_optimization s = StartOutcome.threadStarted u →
      s.loadedImages.length ≠ 0 ∧ s.optimizing = false
      ∧ s.loadedImages.any (fun i => decide (i.target < 0)) = false
      ∧ u = allParams.filter (fun n => !(s.paramLocks n)) ∧ u ≠ []) := by
  refine ⟨?_, ?_, ?_, ?_, ?_⟩
  · intro h0
    simp [start_optimization, h0]
  · intro h0 h1
    simp [start_optimization, h0, h1]
  · intro h0 h1 h2
    simp [start_optimization, h0, h1, h2]
  · intro h0 h1 h2 h3
    simp [start_optimization, h0, h1, h2, h3]
  · intro u hu
    unfold start_optimization at hu
    by_cases h0 : s.loadedImages.length = 0
    · rw [if_pos h0] at hu
      exact absurd hu (by simp)
    rw [if_neg h0] at hu
    by_cases h1 : s.optimizing
    · rw [if_pos h1] at hu
      exact absurd hu (by simp)
    rw [if_neg h1] at hu
    by_cases h2 : s.loadedImages.any (fun i => decide (i.target < 0)) = true
    · rw [if_pos h2] at hu
      exact absurd hu (by simp)
    rw [if_neg h2] at hu
    simp only at hu
    by_cases h3 : (allParams.filter (fun n => !(s.paramLocks n))).length = 0
    · rw [if_pos h3] at hu
      exact absurd hu (by simp)
    rw [if_neg h3] at hu
    have hue : u = allParams.filter (fun n => !(s.paramLocks n)) := by
      cases hu
      rfl
    refine ⟨h0, by simpa using h1, by simpa using h2, hue, ?_⟩
    rw [hue]
    intro hnil
    exact h3 (by rw [hnil]; rfl)

/-- Witness for C6's amended theorem at the concrete already-running state. -/
theorem c6_witness :
    c6state.loadedImages.length ≠ 0
  ∧ c6state.optimizing = true
  ∧ start_optimization c6state = StartOutcome.silentReturn :=
  ⟨by decide, by decide,
    (c6_rejections_no_thread c6state).2.1 (by decide) (by decide)⟩

lemma length_filterMap_le_of_isSome {α β : Type} (f g : α → Option β)
    (h : ∀ a, (f a).isSome = true → (g a).isSome = true) (l : List α) :
    (l.filterMap f).length ≤ (l.filterMap g).length := by
  induction l with
  | nil => simp
  | cons a l ih =>
    rw [List.filterMap_cons, List.filterMap_cons]
    cases hf : f a with
    | none =>
      cases hg : g a with
      | none => exact ih
      | some b => simp only [List.length_cons]; omega
    | some b =>
      have hgs := h a (by rw [hf]; rfl)
      cases hg : g a with
      | none => rw [hg] at hgs; simp at hgs
      | some c => simp only [List.length_cons]; omega

/-- C7: For every fixed image and every parameter vector in which all
parameters except `MIN_BLOB_AREA` and `MAX_BLOB_AREA` are held fixed,
widening the area window (decreasing `MIN_BLOB_AREA` and/or increasing
`MAX_BLOB_AREA`) never decreases the count returned by the detection
pipeline: the components extracted by steps 2-6 do not depend on the area
bounds, and the final filter keeps at least as many of them under the wider
window. -/
theorem c7_area_window_monotone (image : Img) (p : DetectParams)
    (m2 M2 : Int) (h1 : m2 ≤ p.minArea) (h2 : p.maxArea ≤ M2) :
    runPipeline image p
      ≤ runPipeline image { p with minArea := m2, maxArea := M2 } := by
  obtain ⟨x1, x2, y1, y2, bp, mA, MA, bs, ms⟩ := p
  simp only at h1 h2
  unfold runPipeline pipelineCore
  simp only
  cases hs : stage1 image x1 x2 y1 y2 bp (oddify bs) (oddify ms) with
  | error e => exact le_refl 0
  | ok comps =>
    simp only
    apply length_filterMap_le_of_isSome
    intro c hc
    by_cases hcond : mA ≤ (c.length : Int) ∧ (c.length : Int) ≤ MA
    · have hwide : m2 ≤ (c.length : Int) ∧ (c.length : Int) ≤ M2 :=
        ⟨le_trans h1 hcond.1, le_trans hcond.2 h2⟩
      rw [if_pos hwide]
      rfl
    · rw [if_neg hcond] at hc
      simp at hc

/-- Witness for C7 at a concrete image and a concrete widened window. -/
theorem c7_witness :
    (4 : Int) ≤ c7p.minArea
  ∧ c7p.maxArea ≤ (11 : Int)
  ∧ runPipeline c7img c7p
      ≤ runPipeline c7img { c7p with minArea := 4, maxArea := 11 } :=
  ⟨by decide, by decide,
    c7_area_window_monotone c7img c7p 4 11 (by decide) (by decide)⟩

lemma mem_allParams (n : PName) : n ∈ allParams := by
  cases n <;> simp [allParams]

lemma dictLookup_cons (k : PName) (v : ℚ) (rest : List (PName × ℚ))
    (n : PName) :
    dictLookup ((k, v) :: rest) n = if n = k then some v else dictLookup rest n :=
  rfl

lemma dictLookup_append_right (l1 l2 : List (PName × ℚ)) (n : PName)
    (h : ∀ q ∈ l1, q.1 ≠ n) :
    dictLookup (l1 ++ l2) n = dictLookup l2 n := by
  induction l1 with
  | nil => rfl
  | cons q rest ih =>
    obtain ⟨k, v⟩ := q
    have hk : k ≠ n := h (k, v) (by simp)
    rw [List.cons_append, dictLookup_cons, if_neg (fun he => hk he.symm)]
    exact ih (fun q hq => h q (by simp [hq]))

lemma dictLookup_map_self (l : List PName) (f : PName → ℚ) (n : PName)
    (h : n ∈ l) :
    dictLookup (l.map (fun m => (m, f m))) n = some (f n) := by
  induction l with
  | nil => simp at h
  | cons k rest ih =>
    rw [List.map_cons]
    unfold dictLookup
    by_cases hk : n = k
    · rw [if_pos hk, hk]
    · rw [if_neg hk]
      exact ih (by rcases List.mem_cons.mp h with h' | h'; exact absurd h' hk; exact h')

lemma buildSpace_names (l : List PName) : (buildSpace l).map Dim.pname = l := by
  induction l with
  | nil => rfl
  | cons n rest ih =>
    unfold buildSpace at ih ⊢
    rw [List.map_cons, List.map_cons, ih]
    by_cases h : n.isIntegerParam = true
    · rw [if_pos h]
      rfl
    · rw [if_neg h]
      rfl

/-- C8: For every optimizer trial, the parameter dictionary passed to the
detection pipeline holds each locked parameter at its current slider value,
and the optimizer's search space contains a dimension only for each unlocked
parameter; locked parameter values are identical across all trials of a run
(the slider state is not mutated while an optimization runs). -/
theorem c8_locked_params_held (s : TunerState) (unlocked : List PName)
    (p1 p2 : List ℚ) (n : PName)
    (hu : unlocked = allParams.filter (fun m => !(s.paramLocks m)))
    (hl : s.paramLocks n = true) :
    dictLookup (buildDict s unlocked p1) n = some (s.params n)
  ∧ dictGetD (buildDict s unlocked p1) n (s.params n)
      = dictGetD (buildDict s unlocked p2) n (s.params n)
  ∧ (buildSpace unlocked).map Dim.pname = unlocked := by
  have hnotu : n ∉ unlocked := by
    rw [hu]
    intro hmem
    have := (List.mem_filter.mp hmem).2
    simp [hl] at this
  have hlook : ∀ p : List ℚ,
      dictLookup (buildDict s unlocked p) n = some (s.params n) := by
    intro p
    unfold buildDict
    rw [dictLookup_append_right]
    · exact dictLookup_map_self _ s.params n
        (List.mem_filter.mpr ⟨mem_allParams n, by simp [hl]⟩)
    · intro q hq
      obtain ⟨w, hw, hwq⟩ := List.mem_map.mp hq
      have hw1 : w.1 ∈ unlocked := (List.of_mem_zip hw).1
      intro hqn
      rw [← hwq] at hqn
      simp only at hqn
      rw [hqn] at hw1
      exact hnotu hw1
  refine ⟨hlook p1, ?_, buildSpace_names unlocked⟩
  unfold dictGetD
  rw [hlook p1, hlook p2]

/-- Witness for C8 at a concrete all-locked state. -/
theorem c8_witness :
    (([] : List PName) = allParams.filter (fun m => !(c8state.paramLocks m)))
  ∧ c8state.paramLocks PName.blurSize = true
  ∧ (dictLookup (buildDict c8state [] [3]) PName.blurSize
        = some (c8state.params PName.blurSize)
     ∧ dictGetD (buildDict c8state [] [3]) PName.blurSize
          (c8state.params PName.blurSize)
        = dictGetD (buildDict c8state [] [5]) PName.blurSize
          (c8state.params PName.blurSize)
     ∧ (buildSpace ([] : List PName)).map Dim.pname = ([] : List PName)) :=
  ⟨by decide, by decide,
    c8_locked_params_held c8state [] [3] [5] PName.blurSize (by decide) (by decide)⟩

/-- C9: The detection pipeline is deterministic: for every image and
parameter vector, running the pipeline twice yields identical counts and
identical blob lists (centers, radii, areas), with no hidden randomness in
steps 2-8 — any two results of running `pipelineCore` on the same image and
parameters are equal, and so are the counts `runPipeline` returns. -/
theorem c9_pipeline_deterministic (image : Img) (p : DetectParams)
    (r1 r2 : Except String (Nat × List Blob))
    (h1 : r1 = pipelineCore image p) (h2 : r2 = pipelineCore image p) :
    r1 = r2 ∧ runPipeline image p = runPipeline image p := by
  subst h1
  subst h2
  exact ⟨rfl, rfl⟩

/-- Witness for C9 at a concrete image and parameter vector. -/
theorem c9_witness :
    pipelineCore c9img c9p = pipelineCore c9img c9p
  ∧ (pipelineCore c9img c9p = pipelineCore c9img c9p
     ∧ runPipeline c9img c9p = runPipeline c9img c9p) :=
  ⟨rfl, c9_pipeline_deterministic c9img c9p _ _ rfl rfl⟩

/-- C10 counterexample: at a state whose sliders define an inverted (empty)
ROI, the pipeline fails with an invalid-ROI condition, yet the interactively
triggered "Process Current" action is not aborted: it completes and reports a
zero-count status line (`"✓ ...: Detected 0, Target 3, Error 3"`), exactly
like the zero-count surfacing of normal multi-image processing — the error is
only printed to the console inside `process_single_image`'s `except` clause
(lines 559-562). -/
theorem c10_counterexample :
    (pipelineCore c10image.image (resolveParams c10state.params none)).toOption
      = none
  ∧ process_current_image c10state = ProcessNowOutcome.processed 0 3 3
  ∧ (process_current_image c10state).isProcessed = true := by
  decide

/-- C10 (amended): when an InvalidROI condition (crop bounds empty or out of
image range) occurs during an interactively triggered single-image "process
now" action, the action is not aborted: the exception is caught inside
`process_single_image` (logged to the console only) and the action completes
with a zero-count status line, surfacing exactly as it does during normal
multi-image processing, where the same condition yields a zero-count result
for that image. -/
theorem c10_invalid_roi_zero_count (s : TunerState)
    (h1 : s.loadedImages.length ≠ 0)
    (h2 : (pipelineCore (currentImage s).image
        (resolveParams s.params none)).toOption = none) :
    process_current_image s
      = ProcessNowOutcome.processed 0 (currentImage s).target
          ((0 - (currentImage s).target).natAbs)
  ∧ process_single_image (currentImage s).image s.params none = 0 := by
  have hz : process_single_image (currentImage s).image s.params none = 0 := by
    unfold process_single_image runPipeline
    cases hp : pipelineCore (currentImage s).image (resolveParams s.params none) with
    | ok r => rw [hp] at h2; simp [Except.toOption] at h2
    | error e => rfl
  constructor
  · unfold process_current_image
    rw [if_neg h1]
    simp only [hz]
    norm_num
  · exact hz

/-- Witness for C10's amended theorem at the concrete invalid-ROI state. -/
theorem c10_witness :
    c10state.loadedImages.length ≠ 0
  ∧ (pipelineCore (currentImage c10state).image
      (resolveParams c10state.params none)).toOption = none
  ∧ (process_current_image c10state
       = ProcessNowOutcome.processed 0 (currentImage c10state).target
           ((0 - (currentImage c10state).target).natAbs)
     ∧ process_single_image (currentImage c10state).image c10state.params none
         = 0) :=
  ⟨by decide, by decide,
    c10_invalid_roi_zero_count c10state (by decide) (by decide)⟩

end VialTune
